import Mathlib

/-
Shallow embedding of the credential-lifecycle core and the SSE session
registry of the g2n-mcp-gcal-sse gateway.

Embedded source files:
  * src/auth/tokenManager.ts      (TokenManager: saveTokens, getTokens,
                                   clearTokens, hasValidTokens, setupTokenRefresh)
  * src/auth/oauthHandler.ts      (OAuthHandler: exchangeCode, revokeTokens)
  * src/services/googleCalendar.ts (GoogleCalendarService: refreshAccessToken,
                                   revokeAccess)
  * src/routes/index.ts           (createRouter: /sse open, close/error handlers,
                                   heartbeat interval callback, /messages handler)

Conventions of the embedding:
  * JavaScript objects of type `Credentials` (google-auth-library) are modelled
    by the structure `Credentials` below; a field that is `undefined`/absent on
    the JS side is `none`.
  * JavaScript truthiness tests on those fields (`!!tokens.refresh_token`,
    `if (tokens.expiry_date)`) are modelled by `truthyStr` / `truthyInt`:
    the empty string and the number 0 are falsy.
  * The durable token file is modelled by `Durable`: absent, unreadable or
    malformed (`corrupt`, the case where reading or JSON parsing throws), or a
    parsed JSON value (`stored`).  `JSON.stringify` / `JSON.parse` are modelled
    by `Credentials.toJson` / `Credentials.fromJson` over a JSON fragment
    sufficient for token serialization (stringify drops absent fields).
  * Promise-returning methods that can throw are modelled as total functions
    returning a result constructor (`StoreResult`, `RevokeResult`, ...)
    together with the post-state; environmental failures (a failing
    `fs.writeFile`/`fs.unlink`, a failing provider call) are explicit boolean
    or `Option` parameters.
  * Epoch-millisecond timestamps (`expiry_date`, `Date.now()`) are `Int`.
-/

/-- JavaScript truthiness of an optional string field: `undefined` and the
empty string are falsy (`!!tokens.refresh_token`). -/
def truthyStr : Option String → Bool
  | none => false
  | some s => !s.isEmpty

/-- JavaScript truthiness of an optional numeric field: `undefined` and `0`
are falsy (`if (tokens.expiry_date)`). -/
def truthyInt : Option Int → Bool
  | none => false
  | some n => n != 0

/-- JSON values, restricted to the fragment produced by serializing a
`Credentials` object (`JSON.stringify(credentials)`). -/
inductive Json where
  | null : Json
  | str : String → Json
  | num : Int → Json
  | obj : List (String × Json) → Json

/-- First-match field lookup in a JSON object, as JS property access on a
parsed object; any non-object value has no fields (property access on a
primitive yields `undefined`). -/
def lookupField : List (String × Json) → String → Option Json
  | [], _ => none
  | (k, v) :: rest, key => if k = key then some v else lookupField rest key

/-- Property access `j[key]` on a parsed JSON value. -/
def Json.lookup : Json → String → Option Json
  | .obj fs, key => lookupField fs key
  | _, _ => none

/-- The OAuth2 token set (`Credentials` of google-auth-library): the fields
the repository reads and writes. -/
structure Credentials where
  access_token : Option String
  refresh_token : Option String
  scope : Option String
  token_type : Option String
  expiry_date : Option Int
deriving DecidableEq

/-- A present string field, as one JSON object entry; an absent field is
dropped (`JSON.stringify` omits `undefined` properties). -/
def strField (key : String) : Option String → List (String × Json)
  | none => []
  | some s => [(key, Json.str s)]

/-- A present numeric field, as one JSON object entry; an absent field is
dropped. -/
def numField (key : String) : Option Int → List (String × Json)
  | none => []
  | some n => [(key, Json.num n)]

/-- `JSON.stringify(credentials)`: the serialized token file contents. -/
def Credentials.toJson (c : Credentials) : Json :=
  Json.obj (strField "access_token" c.access_token ++
    strField "refresh_token" c.refresh_token ++
    strField "scope" c.scope ++
    strField "token_type" c.token_type ++
    numField "expiry_date" c.expiry_date)

/-- Coerce a looked-up JSON field to a string field (a missing or non-string
value reads as absent). -/
def asStr : Option Json → Option String
  | some (Json.str s) => some s
  | _ => none

/-- Coerce a looked-up JSON field to a numeric field. -/
def asInt : Option Json → Option Int
  | some (Json.num n) => some n
  | _ => none

/-- Reading a parsed token file back as a `Credentials` object
(`this.tokens = JSON.parse(tokensData)` followed by field access): the JSON
literal `null` parses to the JS value `null`, i.e. no credentials; any other
value is read through property access on its fields. -/
def Credentials.fromJson : Json → Option Credentials
  | .null => none
  | j => some
      { access_token := asStr (j.lookup "access_token")
        refresh_token := asStr (j.lookup "refresh_token")
        scope := asStr (j.lookup "scope")
        token_type := asStr (j.lookup "token_type")
        expiry_date := asInt (j.lookup "expiry_date") }

/-- The durable token file (`config.tokenStoragePath`): missing, unreadable
or malformed (read or `JSON.parse` throws), or holding a parsed JSON value. -/
inductive Durable where
  | missing : Durable
  | corrupt : Durable
  | stored : Json → Durable

/-- The mutable fields of a `TokenManager` instance: the in-process cache
`this.tokens` and the pending refresh-timer handle `this.refreshTimerId`. -/
structure TMState where
  tokens : Option Credentials
  refreshTimerId : Option Nat
deriving DecidableEq

/-- Outcome of a store operation that either resolves or throws the
underlying I/O error (`saveTokens` / `clearTokens`). -/
inductive StoreResult where
  | ok : StoreResult
  | storageError : StoreResult
deriving DecidableEq

/-- `TokenManager.saveTokens(credentials)`: installs the credentials in the
in-process cache, then attempts the durable write; a failing write
(`writeFails`) rethrows, leaving the durable file unchanged but the cache
already updated. -/
def saveTokens (st : TMState) (d : Durable) (writeFails : Bool)
    (credentials : Credentials) : StoreResult × TMState × Durable :=
  let st' : TMState := { st with tokens := some credentials }
  if writeFails then (.storageError, st', d)
  else (.ok, st', .stored credentials.toJson)

/-- `TokenManager.getTokens()`: returns the in-process cache when populated;
otherwise, when the file exists, reads and parses it, populating the cache;
returns `none` when the file is missing; on a read/parse error resets the
cache to `null` and returns `none`.  Total by construction: no branch
throws. -/
def getTokens (st : TMState) (d : Durable) : Option Credentials × TMState :=
  match st.tokens with
  | some t => (some t, st)
  | none =>
    match d with
    | .missing => (none, st)
    | .corrupt => (none, { st with tokens := none })
    | .stored j =>
      match Credentials.fromJson j with
      | some c => (some c, { st with tokens := some c })
      | none => (none, { st with tokens := none })

/-- `TokenManager.clearTokens()`: nulls the cache, unlinks the file when it
exists (a failing unlink rethrows before the timer is cancelled), then
cancels any pending refresh timer. -/
def clearTokens (st : TMState) (d : Durable) (unlinkFails : Bool) :
    StoreResult × TMState × Durable :=
  let st' : TMState := { st with tokens := none }
  match d with
  | .missing => (.ok, { st' with refreshTimerId := none }, .missing)
  | _ =>
    if unlinkFails then (.storageError, st', d)
    else (.ok, { st' with refreshTimerId := none }, .missing)

/-- `TokenManager.hasValidTokens()`: loads tokens; `false` when absent;
otherwise, when an expiry date is (truthily) present, returns whether a
refresh token is (truthily) present — an expired access token is still
valid if a refresh token exists; without an expiry date, `false`. -/
def hasValidTokens (st : TMState) (d : Durable) : Bool × TMState :=
  match getTokens st d with
  | (none, st') => (false, st')
  | (some t, st') =>
    let hasRefreshToken := truthyStr t.refresh_token
    if truthyInt t.expiry_date then (hasRefreshToken, st')
    else (false, st')


/-- Outcome of `OAuthHandler.exchangeCode(code)`: the resolved token set, a
failing provider call (`client.getToken` rejected), the missing-refresh-token
throw, or a rethrown storage failure from `saveTokens`. -/
inductive ExchangeResult where
  | ok : Credentials → ExchangeResult
  | providerError : ExchangeResult
  | consentRequired : ExchangeResult
  | storageError : ExchangeResult
deriving DecidableEq

/-- `OAuthHandler.exchangeCode(code)`: asks the provider for tokens
(`provider = none` models a rejected `getToken` call); throws when the
response carries no (truthy) refresh token, before anything is persisted;
otherwise persists the tokens through `saveTokens` and returns them. -/
def exchangeCode (st : TMState) (d : Durable) (provider : Option Credentials)
    (writeFails : Bool) : ExchangeResult × TMState × Durable :=
  match provider with
  | none => (.providerError, st, d)
  | some tokens =>
    if truthyStr tokens.refresh_token = false then (.consentRequired, st, d)
    else
      match saveTokens st d writeFails tokens with
      | (.ok, st', d') => (.ok tokens, st', d')
      | (.storageError, st', d') => (.storageError, st', d')

/-- Outcome of a revocation (`OAuthHandler.revokeTokens` /
`GoogleCalendarService.revokeAccess`): resolved, a rethrown provider-side
`revokeToken` rejection, or a rethrown storage failure from `clearTokens`. -/
inductive RevokeResult where
  | ok : RevokeResult
  | providerError : RevokeResult
  | storageError : RevokeResult
deriving DecidableEq

/-- `OAuthHandler.revokeTokens()`: loads tokens; when a (truthy) access token
exists, calls the provider (`revokeOk = false` models a rejected
`client.revokeToken`, which rethrows before any local clearing); then clears
the token manager. -/
def revokeTokens (st : TMState) (d : Durable) (revokeOk : Bool)
    (unlinkFails : Bool) : RevokeResult × TMState × Durable :=
  match getTokens st d with
  | (tok, st') =>
    let clear : TMState → RevokeResult × TMState × Durable := fun s =>
      match clearTokens s d unlinkFails with
      | (.ok, s', d') => (.ok, s', d')
      | (.storageError, s', d') => (.storageError, s', d')
    match tok with
    | some t =>
      if truthyStr t.access_token then
        if revokeOk then clear st' else (.providerError, st', d)
      else clear st'
    | none => clear st'

/-- The mutable fields of a `GoogleCalendarService` instance that the claims
reach: its `TokenManager` state, the durable file, and whether
`this.calendar` holds a built API client. -/
structure SvcState where
  tm : TMState
  durable : Durable
  calendarInit : Bool

/-- `GoogleCalendarService.revokeAccess()`: loads tokens; when a (truthy)
access token exists, runs `oauthHandler.revokeTokens()` (whose provider-side
failure rethrows out of `revokeAccess` too); then clears the token manager
again and drops the calendar client.  Any rethrow leaves the remaining local
clearing undone. -/
def revokeAccess (s : SvcState) (revokeOk : Bool) (unlinkFails : Bool) :
    RevokeResult × SvcState :=
  match getTokens s.tm s.durable with
  | (tok, st1) =>
    let finish : TMState → Durable → RevokeResult × SvcState := fun st d =>
      match clearTokens st d unlinkFails with
      | (.ok, st', d') => (.ok, ⟨st', d', false⟩)
      | (.storageError, st', d') => (.storageError, ⟨st', d', s.calendarInit⟩)
    match tok with
    | some t =>
      if truthyStr t.access_token then
        match revokeTokens st1 s.durable revokeOk unlinkFails with
        | (.ok, st2, d2) => finish st2 d2
        | (.providerError, st2, d2) => (.providerError, ⟨st2, d2, s.calendarInit⟩)
        | (.storageError, st2, d2) => (.storageError, ⟨st2, d2, s.calendarInit⟩)
      else finish st1 s.durable
    | none => finish st1 s.durable

/-- Outcome of `GoogleCalendarService.refreshAccessToken(tokens)`: resolved,
the immediate missing-refresh-token throw, a rejected provider refresh call,
a rethrown storage failure, or the `setupClientWithTokens` throw when no
tokens are found after saving (unreachable after a successful save). -/
inductive RefreshResult where
  | ok : RefreshResult
  | noRefreshToken : RefreshResult
  | providerError : RefreshResult
  | storageError : RefreshResult
  | noTokens : RefreshResult
deriving DecidableEq

/-- `GoogleCalendarService.refreshAccessToken(tokens)`: throws immediately
when `tokens` has no (truthy) refresh token, before the provider is
contacted; otherwise calls the provider (`provider = none` models a rejected
`refreshAccessToken` call, `some newCreds` its response credentials); when
the response omits a refresh token the original one is copied onto it; the
result is persisted via `saveTokens`, then `setupClientWithTokens` reloads
the cache and rebuilds the calendar client. -/
def refreshAccessToken (s : SvcState) (tokens : Credentials)
    (provider : Option Credentials) (writeFails : Bool) :
    RefreshResult × SvcState :=
  if truthyStr tokens.refresh_token = false then (.noRefreshToken, s)
  else
    match provider with
    | none => (.providerError, s)
    | some newCreds =>
      let creds :=
        if !truthyStr newCreds.refresh_token &&
            truthyStr tokens.refresh_token then
          { newCreds with refresh_token := tokens.refresh_token }
        else newCreds
      match saveTokens s.tm s.durable writeFails creds with
      | (.ok, st1, d1) =>
        match getTokens st1 d1 with
        | (some _, st2) => (.ok, ⟨st2, d1, true⟩)
        | (none, st2) => (.noTokens, ⟨st2, d1, s.calendarInit⟩)
      | (.storageError, st1, d1) => (.storageError, ⟨st1, d1, s.calendarInit⟩)

/-- The runtime's set of pending timeouts, as seen by this process: a fresh-id
counter and the ids of timers that are scheduled and not yet cancelled or
fired.  `setTimeout` allocates a fresh id; `clearTimeout` removes one. -/
structure TimerWorld where
  nextId : Nat
  active : List Nat
deriving DecidableEq

/-- `clearTimeout(handle)`. -/
def cancelTimer (w : TimerWorld) (i : Nat) : TimerWorld :=
  { w with active := w.active.erase i }

/-- `setTimeout(fn, delay)`: returns the fresh handle and the world with it
pending. -/
def scheduleTimer (w : TimerWorld) : Nat × TimerWorld :=
  (w.nextId, { nextId := w.nextId + 1, active := w.nextId :: w.active })

/-- The guard-and-cancel prologue of `setupTokenRefresh`: cancels the
previously installed timer, when one exists. -/
def cancelExisting (st : TMState) (w : TimerWorld) : TimerWorld :=
  match st.refreshTimerId with
  | some i => cancelTimer w i
  | none => w

/-- The body of the `checkAndRefreshToken` closure, up to the trailing
`setTimeout`: loads tokens; when an expiry date and a refresh token are both
(truthily) present and fewer than 15 minutes remain, awaits the registered
listener (the listener models `refreshAccessToken`, which mutates the token
cache and the durable file but no timers; a listener that throws is caught,
leaving state as the listener left it). -/
def runCheck (st : TMState) (d : Durable) (now : Int)
    (listener : Credentials → TMState × Durable → TMState × Durable) :
    TMState × Durable :=
  match getTokens st d with
  | (tok, st') =>
    match tok with
    | some t =>
      if truthyInt t.expiry_date && truthyStr t.refresh_token then
        match t.expiry_date with
        | some e =>
          if e - now < 15 * 60 * 1000 then listener t (st', d) else (st', d)
        | none => (st', d)
      else (st', d)
    | none => (st', d)

/-- `TokenManager.setupTokenRefresh(listener)`: cancels any existing refresh
timer, runs `checkAndRefreshToken` once immediately, and — regardless of the
check's outcome — schedules the next check, storing the fresh handle in
`refreshTimerId`. -/
def setupTokenRefresh (st : TMState) (d : Durable) (w : TimerWorld) (now : Int)
    (listener : Credentials → TMState × Durable → TMState × Durable) :
    TMState × Durable × TimerWorld :=
  let w1 := cancelExisting st w
  match runCheck { st with refreshTimerId := none } d now listener with
  | (st1, d1) =>
    match scheduleTimer w1 with
    | (fresh, w2) => ({ st1 with refreshTimerId := some fresh }, d1, w2)

/-- The session registry of `createRouter`: the keys of the `transports` map
(session id to `SSEServerTransport`) and of the `heartbeatIntervals` map
(session id to interval handle). -/
structure Registry where
  transports : List String
  heartbeats : List String
deriving DecidableEq

/-- The registry before any connection. -/
def emptyRegistry : Registry := ⟨[], []⟩

/-- The `/sse` handler for a fresh session id: stores the transport in
`transports` and installs the 10-second heartbeat interval. -/
def sseOpen (reg : Registry) (id : String) : Registry :=
  { transports := id :: reg.transports, heartbeats := id :: reg.heartbeats }

/-- The `res.on('close')` and `res.on('error')` handlers: clear and delete
the session's heartbeat interval and delete its transport entry. -/
def sseClose (reg : Registry) (id : String) : Registry :=
  { transports := reg.transports.erase id
    heartbeats := reg.heartbeats.erase id }

/-- One firing of the heartbeat interval callback for session `id`: when the
response stream is writable, writes the ping frame and changes nothing;
otherwise clears and deletes the heartbeat interval — the `transports` entry
is not touched.  (A throwing `res.write` takes the catch branch, which also
only clears the interval.) -/
def heartbeatTick (reg : Registry) (id : String) (writable : Bool) : Registry :=
  if writable then reg
  else { reg with heartbeats := reg.heartbeats.erase id }

/-- Outcome of the `/messages` handler: the message handed to exactly the
transport registered under the requested id; a `handlePostMessage` rejection
caught and logged (no error response is produced); or the single 400
response, message string "No transport found for the sessionId". -/
inductive RouteResult where
  | delivered : String → RouteResult
  | errorLogged : RouteResult
  | noTransport : RouteResult
deriving DecidableEq

/-- The `/messages` handler: looks up `transports[sessionId]`; when present,
awaits `transport.handlePostMessage` (`writable = false` models a transport
whose channel is torn down, so the call rejects and is merely logged); when
absent — whether the id was never opened or its session was already closed —
responds 400 "No transport found for the sessionId". -/
def postMessage (reg : Registry) (id : String) (writable : Bool) : RouteResult :=
  if reg.transports.contains id then
    if writable then .delivered id else .errorLogged
  else .noTransport

/-- The pending-timer handles a `TokenManager` instance accounts for: the one
in `refreshTimerId`, when set. -/
def trackedTimers (st : TMState) : List Nat :=
  match st.refreshTimerId with
  | some i => [i]
  | none => []

/-- The timers pending in the runtime are exactly the ones the
`TokenManager` tracks: the single-refresh-timer invariant. -/
def timerInv (st : TMState) (w : TimerWorld) : Prop :=
  w.active = trackedTimers st

/-- A sample stored token set: truthy access and refresh tokens, an expiry
date. -/
def sampleTok : Credentials := ⟨some "a", some "r", none, none, some 1⟩

/-- Serialization round-trip: re-reading a token file written by
`saveTokens` recovers the credentials field-for-field. -/
theorem fromJson_toJson (c : Credentials) :
    Credentials.fromJson c.toJson = some c := by
  rcases c with ⟨a, r, s, t, e⟩
  cases a <;> cases r <;> cases s <;> cases t <;> cases e <;> rfl

/-- A load that yields credentials leaves exactly those credentials in the
in-process cache. -/
theorem getTokens_eq_some (st : TMState) (d : Durable) (t : Credentials)
    (h : (getTokens st d).1 = some t) :
    getTokens st d = (some t, ⟨some t, st.refreshTimerId⟩) := by
  obtain ⟨tk, rid⟩ := st
  cases tk with
  | some t0 =>
    simp only [getTokens] at h ⊢
    cases h
    rfl
  | none =>
    cases d with
    | missing => simp [getTokens] at h
    | corrupt => simp [getTokens] at h
    | stored j =>
      simp only [getTokens] at h ⊢
      cases hj : Credentials.fromJson j with
      | none => rw [hj] at h; simp at h
      | some c =>
        rw [hj] at h
        simp at h
        subst h
        rfl

/-- Claim C8 (confirmed): `getTokens` never raises (it is total, returning
`Option`): it returns the in-process cache when populated; with an empty
cache it returns absent for a missing file without error; for an unreadable
or corrupt file it returns absent with the cache reset to empty; and for a
file written by `saveTokens` it returns the stored credentials and
populates the cache with them. -/
theorem getTokens_spec (st : TMState) (d : Durable) :
    (∀ t, st.tokens = some t → getTokens st d = (some t, st)) ∧
    (st.tokens = none → d = .missing → getTokens st d = (none, st)) ∧
    (st.tokens = none → d = .corrupt →
      (getTokens st d).1 = none ∧ (getTokens st d).2.tokens = none) ∧
    (∀ c, st.tokens = none → d = .stored c.toJson →
      getTokens st d = (some c, { st with tokens := some c })) := by
  obtain ⟨tk, rid⟩ := st
  refine ⟨?_, ?_, ?_, ?_⟩
  · rintro t rfl
    rfl
  · rintro rfl rfl
    rfl
  · rintro rfl rfl
    exact ⟨rfl, rfl⟩
  · rintro c rfl rfl
    simp [getTokens, fromJson_toJson]

/-- Witness for C8: with an empty cache and a corrupt file, `getTokens`
returns absent and the cache ends empty. -/
theorem getTokens_spec_witness :
    (getTokens ⟨none, none⟩ Durable.corrupt).1 = none ∧
    (getTokens ⟨none, none⟩ Durable.corrupt).2.tokens = none :=
  (getTokens_spec ⟨none, none⟩ Durable.corrupt).2.2.1 rfl rfl

/-- Claim C9 (confirmed): `saveTokens` followed, in a fresh process (empty
in-process cache, so the durable representation is read), by `getTokens`
returns the saved credentials field-for-field. -/
theorem saveTokens_getTokens_roundtrip (st : TMState) (d : Durable)
    (c : Credentials) :
    (saveTokens st d false c).1 = .ok ∧
    (getTokens ⟨none, ((saveTokens st d false c).2.1).refreshTimerId⟩
        (saveTokens st d false c).2.2).1 = some c := by
  refine ⟨rfl, ?_⟩
  simp [saveTokens, getTokens, fromJson_toJson]

/-- Claim C10 (confirmed): `saveTokens` installs the new credentials in the
in-process cache before the durable write, so a failing write raises a
storage error with the durable file unchanged while a subsequent load in
the same process returns the new credentials from the cache. -/
theorem saveTokens_cache_before_write (st : TMState) (d : Durable)
    (c : Credentials) :
    (saveTokens st d true c).1 = .storageError ∧
    (saveTokens st d true c).2.2 = d ∧
    (getTokens (saveTokens st d true c).2.1 (saveTokens st d true c).2.2).1 =
      some c :=
  ⟨rfl, rfl, rfl⟩

/-- Claim C4 counterexample: a cached TokenSet with a (truthy) refresh
credential but no expiry date is present and carries a refresh credential,
yet `hasValidTokens` returns false — the claimed "iff" fails. -/
theorem hasValidTokens_counterexample :
    (getTokens ⟨some ⟨some "a", some "r", none, none, none⟩, none⟩
        Durable.missing).1 = some ⟨some "a", some "r", none, none, none⟩ ∧
    truthyStr (some "r") = true ∧
    (hasValidTokens ⟨some ⟨some "a", some "r", none, none, none⟩, none⟩
        Durable.missing).1 = false := by
  refine ⟨rfl, by decide, rfl⟩

/-- Claim C4 (corrected): `hasValidTokens` returns true iff a TokenSet is
present, carries a (truthy) refresh credential, and has a (truthy) expiry
date; given such an expiry date, the access token being already expired
never makes the result false. -/
theorem hasValidTokens_spec (st : TMState) (d : Durable) :
    ((hasValidTokens st d).1 = true ↔
      ∃ t, (getTokens st d).1 = some t ∧ truthyStr t.refresh_token = true ∧
        truthyInt t.expiry_date = true) ∧
    (∀ now e t, (getTokens st d).1 = some t → t.expiry_date = some e →
      e < now → e ≠ 0 → truthyStr t.refresh_token = true →
      (hasValidTokens st d).1 = true) := by
  constructor
  · unfold hasValidTokens
    rcases hg : getTokens st d with ⟨tok, st'⟩
    cases tok with
    | none => simp
    | some t =>
      by_cases he : truthyInt t.expiry_date = true
      · simp [he]
      · simp [he]
  · intro now e t hget hexp _ hne href
    unfold hasValidTokens
    rcases hg : getTokens st d with ⟨tok, st'⟩
    rw [hg] at hget
    simp only at hget
    subst hget
    have he : truthyInt t.expiry_date = true := by
      rw [hexp]
      simpa [truthyInt] using hne
    simp [he, href]

/-- Witness for C4: a cached TokenSet whose access token expired (expiry 5,
now 10) but which carries a refresh credential is still usable. -/
theorem hasValidTokens_spec_witness :
    (hasValidTokens ⟨some ⟨some "a", some "r", none, none, some 5⟩, none⟩
        Durable.missing).1 = true :=
  (hasValidTokens_spec ⟨some ⟨some "a", some "r", none, none, some 5⟩, none⟩
      Durable.missing).2 10 5 ⟨some "a", some "r", none, none, some 5⟩
    rfl rfl (by decide) (by decide) (by decide)

/-- The timer bookkeeping of `setupTokenRefresh`, independent of what the
first check does: the previously tracked timer is cancelled and a fresh
handle is scheduled and stored. -/
theorem setupTokenRefresh_timer_effect (st : TMState) (d : Durable)
    (w : TimerWorld) (now : Int)
    (listener : Credentials → TMState × Durable → TMState × Durable) :
    (setupTokenRefresh st d w now listener).1.refreshTimerId =
      some (cancelExisting st w).nextId ∧
    (setupTokenRefresh st d w now listener).2.2 =
      ⟨(cancelExisting st w).nextId + 1,
        (cancelExisting st w).nextId :: (cancelExisting st w).active⟩ := by
  unfold setupTokenRefresh
  rcases runCheck { st with refreshTimerId := none } d now listener with ⟨st1, d1⟩
  exact ⟨rfl, rfl⟩

/-- One `setupTokenRefresh` call preserves the single-timer invariant and
leaves exactly one pending timer. -/
theorem setupTokenRefresh_inv (st : TMState) (d : Durable) (w : TimerWorld)
    (now : Int)
    (listener : Credentials → TMState × Durable → TMState × Durable)
    (h : timerInv st w) :
    timerInv (setupTokenRefresh st d w now listener).1
      (setupTokenRefresh st d w now listener).2.2 ∧
    (setupTokenRefresh st d w now listener).2.2.active.length = 1 := by
  have hw1 : (cancelExisting st w).active = [] := by
    rcases hr : st.refreshTimerId with _ | i
    · simpa [cancelExisting, hr, timerInv, trackedTimers] using h
    · have hw : w.active = [i] := by simpa [timerInv, trackedTimers, hr] using h
      simp [cancelExisting, hr, cancelTimer, hw]
  obtain ⟨h1, h2⟩ := setupTokenRefresh_timer_effect st d w now listener
  refine ⟨?_, ?_⟩
  · unfold timerInv trackedTimers
    rw [h1, h2, hw1]
  · rw [h2, hw1]
    rfl

/-- Claim C5 (confirmed): starting from a state where the pending timers are
exactly the tracked one, every `setupTokenRefresh` call cancels the
previously installed timer before installing its own, so one call leaves
exactly one pending timer and a second call in succession still leaves
exactly one. -/
theorem setupTokenRefresh_single_timer (st : TMState) (d : Durable)
    (w : TimerWorld) (now : Int)
    (listener : Credentials → TMState × Durable → TMState × Durable)
    (h : timerInv st w) :
    timerInv (setupTokenRefresh st d w now listener).1
      (setupTokenRefresh st d w now listener).2.2 ∧
    (setupTokenRefresh st d w now listener).2.2.active.length = 1 ∧
    (setupTokenRefresh (setupTokenRefresh st d w now listener).1
        (setupTokenRefresh st d w now listener).2.1
        (setupTokenRefresh st d w now listener).2.2 now
        listener).2.2.active.length = 1 := by
  obtain ⟨hinv, hlen⟩ := setupTokenRefresh_inv st d w now listener h
  exact ⟨hinv, hlen,
    (setupTokenRefresh_inv _ _ _ now listener hinv).2⟩

/-- Witness for C5: from a fresh manager with no pending timers, two
successive `setupTokenRefresh` calls leave exactly one pending timer. -/
theorem setupTokenRefresh_single_timer_witness :
    (setupTokenRefresh ⟨none, none⟩ Durable.missing ⟨0, []⟩ 0
        (fun _ p => p)).2.2.active.length = 1 ∧
    (setupTokenRefresh
        (setupTokenRefresh ⟨none, none⟩ Durable.missing ⟨0, []⟩ 0
          (fun _ p => p)).1
        (setupTokenRefresh ⟨none, none⟩ Durable.missing ⟨0, []⟩ 0
          (fun _ p => p)).2.1
        (setupTokenRefresh ⟨none, none⟩ Durable.missing ⟨0, []⟩ 0
          (fun _ p => p)).2.2 0
        (fun _ p => p)).2.2.active.length = 1 :=
  ⟨(setupTokenRefresh_single_timer ⟨none, none⟩ Durable.missing ⟨0, []⟩ 0
      (fun _ p => p) rfl).2.1,
    (setupTokenRefresh_single_timer ⟨none, none⟩ Durable.missing ⟨0, []⟩ 0
      (fun _ p => p) rfl).2.2⟩

/-- Claim C2 (confirmed): `refreshAccessToken` fails immediately — with the
same result and unchanged state whatever the provider would answer — when
the input carries no (truthy) refresh token; and on provider success, when
the response omits a refresh token, the credentials persisted in cache and
durable store still carry the input's refresh token. -/
theorem refreshAccessToken_spec (s : SvcState) (tokens : Credentials) :
    (truthyStr tokens.refresh_token = false →
      ∀ provider writeFails,
        refreshAccessToken s tokens provider writeFails =
          (.noRefreshToken, s)) ∧
    (∀ newCreds, truthyStr tokens.refresh_token = true →
      truthyStr newCreds.refresh_token = false →
      (refreshAccessToken s tokens (some newCreds) false).1 = .ok ∧
      (refreshAccessToken s tokens (some newCreds) false).2.tm.tokens =
        some { newCreds with refresh_token := tokens.refresh_token } ∧
      (refreshAccessToken s tokens (some newCreds) false).2.durable =
        .stored ({ newCreds with
          refresh_token := tokens.refresh_token }).toJson) := by
  constructor
  · intro h provider writeFails
    simp [refreshAccessToken, h]
  · intro newCreds h1 h2
    simp [refreshAccessToken, h1, h2, saveTokens, getTokens]

/-- Witness for C2: refreshing `sampleTok` when the provider's response
carries a fresh access token but no refresh token persists the response with
`sampleTok`'s refresh token carried forward. -/
theorem refreshAccessToken_spec_witness :
    (refreshAccessToken ⟨⟨none, none⟩, Durable.missing, false⟩ sampleTok
        (some ⟨some "b", none, none, none, some 2⟩) false).1 = .ok ∧
    (refreshAccessToken ⟨⟨none, none⟩, Durable.missing, false⟩ sampleTok
        (some ⟨some "b", none, none, none, some 2⟩) false).2.tm.tokens =
      some ⟨some "b", some "r", none, none, some 2⟩ ∧
    (refreshAccessToken ⟨⟨none, none⟩, Durable.missing, false⟩ sampleTok
        (some ⟨some "b", none, none, none, some 2⟩) false).2.durable =
      .stored (Credentials.toJson ⟨some "b", some "r", none, none, some 2⟩) :=
  (refreshAccessToken_spec ⟨⟨none, none⟩, Durable.missing, false⟩
      sampleTok).2 ⟨some "b", none, none, none, some 2⟩ (by decide) (by decide)

/-- Claim C3 (confirmed): when the provider's response to `exchangeCode`
carries no (truthy) refresh token, the call fails with the consent-required
error and neither cache nor durable store changes; and every successful
`exchangeCode` leaves in cache and durable store a token set whose refresh
token is (truthily) present. -/
theorem exchangeCode_spec (st : TMState) (d : Durable)
    (provider : Option Credentials) (writeFails : Bool) :
    (∀ tokens, provider = some tokens →
      truthyStr tokens.refresh_token = false →
      exchangeCode st d provider writeFails = (.consentRequired, st, d)) ∧
    (∀ tokens, (exchangeCode st d provider writeFails).1 = .ok tokens →
      truthyStr tokens.refresh_token = true ∧
      (exchangeCode st d provider writeFails).2.1.tokens = some tokens ∧
      (exchangeCode st d provider writeFails).2.2 = .stored tokens.toJson) := by
  constructor
  · rintro tokens rfl h
    simp [exchangeCode, h]
  · intro tokens h
    cases provider with
    | none => simp [exchangeCode] at h
    | some p =>
      by_cases hp : truthyStr p.refresh_token = false
      · simp [exchangeCode, hp] at h
      · cases writeFails with
        | true => simp [exchangeCode, hp, saveTokens] at h
        | false =>
          simp only [exchangeCode, hp, if_false, saveTokens, if_neg] at h ⊢
          simp at h
          subst h
          refine ⟨by simpa using hp, rfl, rfl⟩

/-- Witness for C3: a provider response with an absent refresh token makes
the exchange fail with the consent-required error, persisting nothing. -/
theorem exchangeCode_spec_witness :
    exchangeCode ⟨none, none⟩ Durable.missing
        (some ⟨some "a", none, none, none, some 1⟩) false =
      (.consentRequired, ⟨none, none⟩, Durable.missing) :=
  (exchangeCode_spec ⟨none, none⟩ Durable.missing
      (some ⟨some "a", none, none, none, some 1⟩) false).1
    ⟨some "a", none, none, none, some 1⟩ rfl (by decide)

/-- With a succeeding unlink, `clearTokens` always resolves, emptying the
cache, removing the file, and cancelling any pending refresh timer. -/
theorem clearTokens_ok (st : TMState) (d : Durable) :
    clearTokens st d false = (.ok, ⟨none, none⟩, .missing) := by
  cases d <;> rfl

/-- Claim C1 counterexample: with credentials stored (truthy access token)
and the provider-side revoke call failing, `revokeAccess` rethrows the
provider error and the Credential Store still holds the credentials in its
in-memory cache and its durable file — local clearing did not happen. -/
theorem revokeAccess_counterexample :
    (revokeAccess ⟨⟨some sampleTok, none⟩, .stored sampleTok.toJson, true⟩
        false false).1 = .providerError ∧
    (revokeAccess ⟨⟨some sampleTok, none⟩, .stored sampleTok.toJson, true⟩
        false false).2.tm.tokens = some sampleTok ∧
    (revokeAccess ⟨⟨some sampleTok, none⟩, .stored sampleTok.toJson, true⟩
        false false).2.durable = .stored sampleTok.toJson :=
  ⟨rfl, rfl, rfl⟩

/-- Claim C1 (corrected): with a succeeding unlink, `revokeAccess` clears
the Credential Store (cache and durable file) and drops the calendar client
whenever it resolves — the provider revoke having succeeded or been skipped
— but when the provider-side revoke call fails the error propagates and the
store still holds the credentials, with the durable file unchanged: local
clearing is conditional on the provider call not failing. -/
theorem revokeAccess_spec (s : SvcState) (revokeOk : Bool) :
    ((revokeAccess s revokeOk false).1 = .ok →
      (revokeAccess s revokeOk false).2.tm.tokens = none ∧
      (revokeAccess s revokeOk false).2.durable = .missing ∧
      (revokeAccess s revokeOk false).2.calendarInit = false) ∧
    ((revokeAccess s revokeOk false).1 = .providerError →
      ∃ t, (revokeAccess s revokeOk false).2.tm.tokens = some t ∧
        truthyStr t.access_token = true ∧
        (revokeAccess s revokeOk false).2.durable = s.durable) := by
  obtain ⟨st0, d0, cal⟩ := s
  rcases hg : getTokens st0 d0 with ⟨tok, st1⟩
  cases tok with
  | none =>
    constructor
    · intro _
      refine ⟨?_, ?_, ?_⟩ <;> simp [revokeAccess, hg, clearTokens_ok]
    · intro h
      simp [revokeAccess, hg, clearTokens_ok] at h
  | some t =>
    have hst1 : st1 = ⟨some t, st0.refreshTimerId⟩ := by
      have h1 := getTokens_eq_some st0 d0 t (by rw [hg])
      rw [hg] at h1
      exact congrArg Prod.snd h1
    subst hst1
    have hcache : getTokens ⟨some t, st0.refreshTimerId⟩ d0 =
        (some t, ⟨some t, st0.refreshTimerId⟩) :=
      (getTokens_spec ⟨some t, st0.refreshTimerId⟩ d0).1 t rfl
    by_cases ha : truthyStr t.access_token
    · cases revokeOk with
      | false =>
        constructor
        · intro h
          simp [revokeAccess, hg, revokeTokens, hcache, ha] at h
        · intro _
          refine ⟨t, ?_, ha, ?_⟩ <;>
            simp [revokeAccess, hg, revokeTokens, hcache, ha]
      | true =>
        constructor
        · intro _
          refine ⟨?_, ?_, ?_⟩ <;>
            simp [revokeAccess, hg, revokeTokens, hcache, ha, clearTokens_ok]
        · intro h
          simp [revokeAccess, hg, revokeTokens, hcache, ha,
            clearTokens_ok] at h
    · constructor
      · intro _
        refine ⟨?_, ?_, ?_⟩ <;> simp [revokeAccess, hg, ha, clearTokens_ok]
      · intro h
        simp [revokeAccess, hg, ha, clearTokens_ok] at h

/-- Witness for C1: with stored credentials and a succeeding provider
revoke, `revokeAccess` resolves and the store ends empty. -/
theorem revokeAccess_spec_witness :
    (revokeAccess ⟨⟨some sampleTok, none⟩, Durable.missing, true⟩ true
        false).2.tm.tokens = none ∧
    (revokeAccess ⟨⟨some sampleTok, none⟩, Durable.missing, true⟩ true
        false).2.durable = .missing ∧
    (revokeAccess ⟨⟨some sampleTok, none⟩, Durable.missing, true⟩ true
        false).2.calendarInit = false :=
  (revokeAccess_spec ⟨⟨some sampleTok, none⟩, Durable.missing, true⟩ true).1 rfl

/-- Claim C6 counterexample: for an open session whose channel is no longer
writable, one firing of the heartbeat callback removes the session's
heartbeat interval but leaves its transport registered — the liveness loop
does not perform the full close, so a session whose underlying transport is
dead remains in the registry. -/
theorem heartbeatTick_counterexample :
    (heartbeatTick (sseOpen emptyRegistry "s") "s" false).transports =
      ["s"] ∧
    (heartbeatTick (sseOpen emptyRegistry "s") "s" false).heartbeats = [] := by
  constructor <;> decide

/-- Claim C6 (corrected): a failed liveness write makes the heartbeat
callback remove only the session's heartbeat timer, leaving the transport
entry untouched; both the entry and the timer are removed only when the
channel's close (or error) handler fires. -/
theorem heartbeatTick_spec (reg : Registry) (id : String) :
    (heartbeatTick reg id false).heartbeats = reg.heartbeats.erase id ∧
    (heartbeatTick reg id false).transports = reg.transports ∧
    (heartbeatTick reg id true) = reg ∧
    (sseClose reg id).transports = reg.transports.erase id ∧
    (sseClose reg id).heartbeats = reg.heartbeats.erase id := by
  refine ⟨?_, rfl, ?_, rfl, rfl⟩ <;> simp [heartbeatTick, sseClose]

/-- Claim C7 counterexample: after opening session "s" and closing it via
its channel's close handler, routing to "s" produces exactly the same
failure as routing to the never-opened id "u" — the single 400 "No
transport found for the sessionId" response — so no distinct closed-session
error exists. -/
theorem postMessage_counterexample :
    postMessage (sseClose (sseOpen emptyRegistry "s") "s") "s" true =
      .noTransport ∧
    postMessage (sseClose (sseOpen emptyRegistry "s") "s") "u" true =
      .noTransport := by
  constructor <;> decide

/-- Claim C7 (corrected): `postMessage` for an id with no registered
transport — whether never opened or already closed — fails with the one 400
"No transport found for the sessionId" response; for a registered id with a
writable channel it delivers the message to exactly that session's
transport; for a registered id whose channel is torn down the delivery
error is caught and logged, again without a distinct closed-session
error. -/
theorem postMessage_spec (reg : Registry) (id : String) (writable : Bool) :
    (reg.transports.contains id = false →
      postMessage reg id writable = .noTransport) ∧
    (reg.transports.contains id = true → writable = true →
      postMessage reg id writable = .delivered id) ∧
    (reg.transports.contains id = true → writable = false →
      postMessage reg id writable = .errorLogged) := by
  refine ⟨?_, ?_, ?_⟩
  · intro h
    unfold postMessage
    rw [h]
    simp
  · rintro h rfl
    unfold postMessage
    rw [h]
    simp
  · rintro h rfl
    unfold postMessage
    rw [h]
    simp

/-- Witness for C7: routing to the open session "s" delivers to "s". -/
theorem postMessage_spec_witness :
    postMessage (sseOpen emptyRegistry "s") "s" true = .delivered "s" :=
  (postMessage_spec (sseOpen emptyRegistry "s") "s" true).2.1 (by decide) rfl
